import Mathlib

/-!
Verification development for the chatwoot-dify relay service.

The definitions below are a shallow embedding of the Python source:

* `src/app/models/database.py`  — the `Dialogue` entity and webhook payload models;
* `src/app/api/webhooks.py`     — `get_or_create_dialogue` and the `chatwoot_webhook` handler;
* `src/app/dify_client.py`      — `DifyClient.send_chat_message` error taxonomy;
* `src/app/tasks.py`            — the `process_message_with_dify` Celery task, its
  retry behaviour, and the `handle_dify_response` success continuation;
* `src/app/api/chatwoot_actions.py` — the team cache (`update_team_cache`, `get_team_id`).

Machine details that the source relies on are embedded explicitly:

* Python truthiness of optional strings (`if conversation_id:`) is `optStrTruthy`;
* `str(x)` on an optional value (`str(None) = "None"`) is `pyStrOpt` / `pyStrOptInt`;
* Celery's `Task.retry(exc=..., ...)` raises `Retry` while `request.retries + 1
  <= max_retries`, and once the bound is exceeded it re-raises the *passed* `exc`
  (never `MaxRetriesExceededError`, which Celery only raises when no `exc` is given);
  this decision is `celery_retry_reraises`;
* a Python `except` clause that finishes without re-raising ends the `try`
  statement: sibling `except` clauses never run for the same exception.
-/

namespace ChatwootDify

/-- Python truthiness of an optional string: `None` and `""` are falsy. -/
def optStrTruthy : Option String → Bool
  | none => false
  | some s => !(s == "")

/-- Python `str(x)` for an optional string (`str(None) = "None"`). -/
def pyStrOpt : Option String → String
  | none => "None"
  | some s => s

/-- Python `str(x)` for an optional integer (`str(None) = "None"`). -/
def pyStrOptInt : Option Int → String
  | none => "None"
  | some n => toString n

/-- Python `s.startswith(pre)`. -/
def pyStartsWith (s pre : String) : Bool :=
  pre.data.isPrefixOf s.data

/-- The two sentinel message texts from `app/config.py`
(`BOT_CONVERSATION_OPENED_MESSAGE_EXTERNAL` and `BOT_ERROR_MESSAGE_INTERNAL`).
Their concrete values live in configuration, so every result below is proved
for arbitrary values of the two strings. -/
structure BotConfig where
  bot_conversation_opened_message_external : String
  bot_error_message_internal : String
deriving DecidableEq

/-- The `Dialogue` table row (`src/app/models/database.py:9`). Timestamps are
modelled as abstract `Nat` clock values. -/
structure Dialogue where
  id : Option Nat
  chatwoot_conversation_id : String
  dify_conversation_id : Option String
  status : String
  assignee_id : Option Int
  created_at : Nat
  updated_at : Nat
deriving DecidableEq

/-- `DialogueCreate` as produced by `ChatwootWebhook.to_dialogue_create`
(`src/app/models/database.py:124`): exactly the three fields
`chatwoot_conversation_id`, `status`, `assignee_id` are passed to the
constructor, so `model_dump(exclude_unset=True)` contains exactly these three
(`dify_conversation_id` stays unset). -/
structure DialogueCreate where
  chatwoot_conversation_id : String
  status : String
  assignee_id : Option Int
deriving DecidableEq

/-- Predicate matching a stored dialogue against a chatwoot conversation id
(the `filter_by` / `where` clauses of the source queries). -/
def matchesConvo (cid : String) (d : Dialogue) : Bool :=
  d.chatwoot_conversation_id == cid

/-- Number of stored rows for a given chatwoot conversation id. -/
def countMatching (store : List Dialogue) (cid : String) : Nat :=
  store.countP (matchesConvo cid)

/-- Delete the first row satisfying `p` (the `db.delete(dialogue_to_delete)` of
`src/app/api/webhooks.py:197`, where the row was obtained by
`scalar_one_or_none`). -/
def removeFirst (p : Dialogue → Bool) : List Dialogue → List Dialogue
  | [] => []
  | x :: xs => if p x then xs else x :: removeFirst p xs

/-- Apply `f` to the first row satisfying `p` (a mutation of the single ORM
object returned by `.first()` / `scalar_one_or_none`, followed by commit). -/
def updFirst (p : Dialogue → Bool) (f : Dialogue → Dialogue) : List Dialogue → List Dialogue
  | [] => []
  | x :: xs => if p x then f x :: xs else x :: updFirst p f xs

/-- `update_dialogue_dify_id_sync` (`src/app/tasks.py:86`): look the dialogue up
by chatwoot id; if found and `not dialogue.dify_conversation_id` (Python
truthiness: `None` or `""`), set the dify id and commit (which also refreshes
`updated_at` through the column `onupdate` hook); otherwise do nothing. A
missing dialogue only logs. -/
def update_dialogue_dify_id_sync (now : Nat) (store : List Dialogue)
    (chatwoot_convo_id new_dify_id : String) : List Dialogue :=
  updFirst (matchesConvo chatwoot_convo_id)
    (fun d =>
      if optStrTruthy d.dify_conversation_id then d
      else { d with dify_conversation_id := some new_dify_id, updated_at := now })
    store

/-- `get_or_create_dialogue` (`src/app/api/webhooks.py:40`): update the row
found by chatwoot conversation id with the fields of `data` (those set by
`to_dialogue_create`) and refresh `updated_at`, or insert a fresh row (database
assigns primary key `newId`, `dify_conversation_id` defaults to `None`).
Returns the new store and the refreshed dialogue. -/
def get_or_create_dialogue (now newId : Nat) (data : DialogueCreate) :
    List Dialogue → List Dialogue × Dialogue
  | [] =>
    let d : Dialogue :=
      { id := some newId
        chatwoot_conversation_id := data.chatwoot_conversation_id
        dify_conversation_id := none
        status := data.status
        assignee_id := data.assignee_id
        created_at := now
        updated_at := now }
    ([d], d)
  | x :: xs =>
    if matchesConvo data.chatwoot_conversation_id x then
      let x' := { x with
        chatwoot_conversation_id := data.chatwoot_conversation_id
        status := data.status
        assignee_id := data.assignee_id
        updated_at := now }
      (x' :: xs, x')
    else
      let r := get_or_create_dialogue now newId data xs
      (x :: r.1, r.2)

/-- `ChatwootSender` (`src/app/models/database.py:43`). -/
structure ChatwootSender where
  id : Option Int
  type : Option String
deriving DecidableEq

/-- `ChatwootMeta` (`src/app/models/database.py:48`); only its `assignee_id`
property (`assignee.get("id") if assignee else None`) is consumed, so the
meta is modelled by that value. -/
structure ChatwootMeta where
  assignee_id : Option Int
deriving DecidableEq

/-- `ChatwootConversation` (`src/app/models/database.py:56`). -/
structure ChatwootConversation where
  id : Int
  status : String := "pending"
  inbox_id : Option Int := none
  meta : ChatwootMeta := { assignee_id := none }
deriving DecidableEq

/-- `ChatwootConversation.assignee_id` property. -/
def ChatwootConversation.assignee_id (c : ChatwootConversation) : Option Int :=
  c.meta.assignee_id

/-- `ChatwootMessage` (`src/app/models/database.py:67`). -/
structure ChatwootMessage where
  id : Int
  content : String
  message_type : String
  conversation : ChatwootConversation
  sender : ChatwootSender
deriving DecidableEq

/-- `ChatwootWebhook` (`src/app/models/database.py:75`). -/
structure ChatwootWebhook where
  event : String
  message_type : String
  sender : Option ChatwootSender := none
  message : Option ChatwootMessage := none
  conversation : Option ChatwootConversation := none
  content : Option String := none
  echo_id : Option String := none
deriving DecidableEq

/-- `ChatwootWebhook.conversation_id` property (`database.py:90`). -/
def ChatwootWebhook.conversation_id (w : ChatwootWebhook) : Option Int :=
  match w.message with
  | some m => some m.conversation.id
  | none =>
    match w.conversation with
    | some c => some c.id
    | none => none

/-- `ChatwootWebhook.assignee_id` property (`database.py:99`). -/
def ChatwootWebhook.assignee_id (w : ChatwootWebhook) : Option Int :=
  match w.message with
  | some m => m.conversation.assignee_id
  | none =>
    match w.conversation with
    | some c => c.assignee_id
    | none => none

/-- `ChatwootWebhook.status` property (`database.py:113`). -/
def ChatwootWebhook.status (w : ChatwootWebhook) : Option String :=
  match w.conversation with
  | some c => some c.status
  | none => none

/-- `ChatwootWebhook.sender_type` property (`database.py:120`). -/
def ChatwootWebhook.sender_type (w : ChatwootWebhook) : Option String :=
  match w.sender with
  | some s => s.type
  | none => none

/-- `ChatwootWebhook.to_dialogue_create` (`database.py:124`):
`str(self.conversation_id)`, `self.status or "open"` (Python `or` keeps the
left operand when truthy), and `self.assignee_id`. -/
def ChatwootWebhook.to_dialogue_create (w : ChatwootWebhook) : DialogueCreate :=
  { chatwoot_conversation_id := pyStrOptInt w.conversation_id
    status :=
      match w.status with
      | none => "open"
      | some s => if s == "" then "open" else s
    assignee_id := w.assignee_id }

/-! ## Dify client (`src/app/dify_client.py`) -/

/-- The JSON fields of a Dify chat response that the pipeline consumes.
`none` models an absent (or `null`) field. -/
structure DifyResult where
  conversation_id : Option String
  answer : Option String
deriving DecidableEq

/-- Behaviour of one HTTP round trip to the Dify `chat-messages` endpoint. -/
inductive GatewayBehavior where
  | ok (result : DifyResult)
  | httpError (status : Nat)
  | requestError
deriving DecidableEq

/-- The typed error taxonomy of `dify_client.py`: `DifyConversationNotFoundError`
(a subclass of `DifyApiError`) and generic `DifyApiError`. -/
inductive DifyError where
  | conversationNotFound
  | apiError
deriving DecidableEq

/-- `DifyClient.send_chat_message` (`src/app/dify_client.py:30`): a 404 status
is translated to `DifyConversationNotFoundError` only when a truthy
`conversation_id` was supplied (`if e.response.status_code == 404 and
conversation_id`); every other HTTP or network failure becomes a generic
`DifyApiError`. -/
def send_chat_message (conversation_id : Option String)
    (resp : GatewayBehavior) : Except DifyError DifyResult :=
  match resp with
  | .ok r => .ok r
  | .httpError status =>
    if status == 404 && optStrTruthy conversation_id then
      .error .conversationNotFound
    else
      .error .apiError
  | .requestError => .error .apiError

/-! ## The relay pipeline task (`src/app/tasks.py`) -/

/-- Values returned by `process_message_with_dify`: the skip dictionary
(`{"status": "skipped", ...}`, tasks.py:130), the Dify result dictionary, or
Python's implicit `None` (reached when an `except` clause ends with `pass`). -/
inductive TaskReturn where
  | skippedDict
  | result (r : DifyResult)
  | pyNone
deriving DecidableEq

/-- Outcome of one execution of the task body. -/
inductive ExecOutcome where
  | returned (v : TaskReturn)
  | retryScheduled
  | raised
deriving DecidableEq

/-- Side effects of (one or several) executions of the task: Dify calls made,
conversations toggled to `"open"`, public messages sent
(`(conversation_id, text, private)`), and the resulting dialogue store. -/
structure TaskEffects where
  gatewayCalls : Nat
  statusToggles : List Int
  apologies : List (Int × String × Bool)
  store : List Dialogue
deriving DecidableEq

/-- Celery `Task.retry(exc=..., countdown=...)` with `request.retries = retries`:
while `retries + 1 <= max_retries` it raises `Retry` (the attempt is
re-scheduled); once `retries + 1 > max_retries` it re-raises the supplied
`exc` (both call sites in tasks.py pass `exc=`, so `MaxRetriesExceededError`
is never raised). `true` means a retry was scheduled. -/
def celery_retry_schedules (retries max_retries : Nat) : Bool :=
  retries + 1 ≤ max_retries

/-- The best-effort cleanup of the generic `except Exception` clause
(tasks.py:239-259): when a truthy `chatwoot_conversation_id` is known,
`int(...)` it, toggle the conversation to `"open"` and send the public
`BOT_CONVERSATION_OPENED_MESSAGE_EXTERNAL`; a non-numeric id makes `int()`
raise inside the inner `try`, which is swallowed after neither call happened.
Returns (status toggles, messages sent). -/
def terminalFailureEffects (cfg : BotConfig) (chatwoot_conversation_id : Option String) :
    List Int × List (Int × String × Bool) :=
  match chatwoot_conversation_id with
  | none => ([], [])
  | some s =>
    if s == "" then ([], [])
    else
      match s.toInt? with
      | some n => ([n], [(n, cfg.bot_conversation_opened_message_external, false)])
      | none => ([], [])

/-- One execution of `process_message_with_dify` (`src/app/tasks.py:113`,
`max_retries=3`) with `self.request.retries = retries`, where `gw` is the
behaviour of the Dify endpoint for this attempt.

Control flow mirrored from the source:
* the sentinel guard (tasks.py:128) returns the skip dictionary before any call;
* a successful call with no prior dify id and a truthy chatwoot id persists a
  truthy returned `conversation_id` via `update_dialogue_dify_id_sync`;
* a successful call missing the expected `conversation_id` calls `self.retry`
  *inside the `try` body*: the raised `Retry` (or, once the bound is exceeded,
  the re-raised `RuntimeError`) is an `Exception`, so it is caught by the
  generic `except Exception` clause, which performs the best-effort cleanup and
  re-raises (tasks.py:231-267);
* `DifyConversationNotFoundError` is caught by its dedicated clause
  (tasks.py:190): `self.retry` raised from within that clause propagates
  directly (sibling `except` clauses of the same `try` cannot catch it), so an
  exhausted retry fails the task with no cleanup;
* any other `DifyApiError` is caught by its clause (tasks.py:207) which ends
  with `pass`, so the function falls off the `try` statement and returns `None`. -/
def process_message_with_dify_exec
    (cfg : BotConfig) (retries max_retries : Nat) (message : String)
    (dify_conversation_id chatwoot_conversation_id : Option String)
    (gw : GatewayBehavior) (store : List Dialogue) (now : Nat) :
    ExecOutcome × TaskEffects :=
  if pyStartsWith message cfg.bot_conversation_opened_message_external
      || pyStartsWith message cfg.bot_error_message_internal then
    (.returned .skippedDict, ⟨0, [], [], store⟩)
  else
    match send_chat_message dify_conversation_id gw with
    | .ok r =>
      if !optStrTruthy dify_conversation_id && optStrTruthy chatwoot_conversation_id then
        if optStrTruthy r.conversation_id then
          let store' :=
            match chatwoot_conversation_id, r.conversation_id with
            | some cid, some newId => update_dialogue_dify_id_sync now store cid newId
            | _, _ => store
          (.returned (.result r), ⟨1, [], [], store'⟩)
        else
          let cleanup := terminalFailureEffects cfg chatwoot_conversation_id
          if celery_retry_schedules retries max_retries then
            (.retryScheduled, ⟨1, cleanup.1, cleanup.2, store⟩)
          else
            (.raised, ⟨1, cleanup.1, cleanup.2, store⟩)
      else
        (.returned (.result r), ⟨1, [], [], store⟩)
    | .error .conversationNotFound =>
      if celery_retry_schedules retries max_retries then
        (.retryScheduled, ⟨1, [], [], store⟩)
      else
        (.raised, ⟨1, [], [], store⟩)
    | .error .apiError => (.returned .pyNone, ⟨1, [], [], store⟩)

/-- Final outcome of a task as the Celery worker sees it. -/
inductive JobOutcome where
  | succeeded (v : TaskReturn)
  | failed
  | outOfFuel
deriving DecidableEq

/-- Run the task to completion: execute, and while an attempt ends in a
scheduled retry re-execute with `retries + 1` (`oracle r` is the Dify
behaviour observed by the attempt with `request.retries = r`). `fuel` bounds
the recursion; `max_retries + 1` attempts always suffice because
`celery_retry_schedules` fails at `retries = max_retries`. -/
def runTaskAux (cfg : BotConfig) (max_retries : Nat) (message : String)
    (dify_conversation_id chatwoot_conversation_id : Option String)
    (oracle : Nat → GatewayBehavior) (now : Nat) :
    Nat → Nat → List Dialogue → JobOutcome × TaskEffects
  | 0, _, store => (.outOfFuel, ⟨0, [], [], store⟩)
  | fuel + 1, retries, store =>
    let step := process_message_with_dify_exec cfg retries max_retries message
      dify_conversation_id chatwoot_conversation_id (oracle retries) store now
    match step.1 with
    | .returned v => (.succeeded v, step.2)
    | .raised => (.failed, step.2)
    | .retryScheduled =>
      let rest := runTaskAux cfg max_retries message dify_conversation_id
        chatwoot_conversation_id oracle now fuel (retries + 1) step.2.store
      (rest.1,
        ⟨step.2.gatewayCalls + rest.2.gatewayCalls,
         step.2.statusToggles ++ rest.2.statusToggles,
         step.2.apologies ++ rest.2.apologies,
         rest.2.store⟩)

/-- A full run of `process_message_with_dify` under the decorator
`@celery.task(bind=True, max_retries=3, default_retry_delay=5)`. -/
def run_process_message_with_dify (cfg : BotConfig) (message : String)
    (dify_conversation_id chatwoot_conversation_id : Option String)
    (oracle : Nat → GatewayBehavior) (now : Nat) (store : List Dialogue) :
    JobOutcome × TaskEffects :=
  runTaskAux cfg 3 message dify_conversation_id chatwoot_conversation_id
    oracle now 4 0 store

/-- Which continuation the Celery worker invokes for a finished task: the
`link` signature (`handle_dify_response`) with the returned payload on normal
return, the `link_error` signature (`handle_dify_error`) when the task raised. -/
inductive Dispatch where
  | link (payload : TaskReturn)
  | linkError
  | noDispatch
deriving DecidableEq

/-- Celery's dispatch of the `link` / `link_error` signatures registered by
`apply_async` (`src/app/api/webhooks.py:114-129`). -/
def celeryDispatch : JobOutcome → Dispatch
  | .succeeded v => .link v
  | .failed => .linkError
  | .outOfFuel => .noDispatch

/-! ## Success continuation (`handle_dify_response`, `src/app/tasks.py:311`) -/

/-- The fixed apologetic text built by `DifyResponse.error_response`
(`src/app/models/database.py:143`). The classmethod is defined in the source
but never called anywhere in the repository. -/
def DifyResponse.error_response_answer : String :=
  "I apologize, but I\x27m temporarily unavailable. Please try again later or wait for a human operator to respond."

/-- `DifyResponse(**dify_result)` validation (`src/app/models/database.py:132`):
`answer` is the only required field. Returns the validated answer, or `none`
when construction raises (`TypeError` for a `None` payload, missing-field
validation error for the skip dictionary or a result without an answer). -/
def difyResponseAnswer : TaskReturn → Option String
  | .result r => r.answer
  | .skippedDict => none
  | .pyNone => none

/-- Observable behaviour of the success continuation: messages sent to
Chatwoot (`(conversation_id, text, private)`) and whether the task re-raised. -/
structure RelayOut where
  sent : List (Int × String × Bool)
  raised : Bool
deriving DecidableEq

/-- `handle_dify_response` (`src/app/tasks.py:311`): validate the payload as a
`DifyResponse` and send `answer` publicly (`private=False`); *any* exception —
validation failure included — is logged and re-raised so Celery marks the
continuation failed. No fallback text is substituted anywhere. -/
def handle_dify_response (payload : TaskReturn) (conversation_id : Int)
    (deliveryFails : Bool) : RelayOut :=
  match difyResponseAnswer payload with
  | none => ⟨[], true⟩
  | some ans =>
    if deliveryFails then ⟨[(conversation_id, ans, false)], true⟩
    else ⟨[(conversation_id, ans, false)], false⟩

/-! ## Webhook ingestor (`src/app/api/webhooks.py:80`) -/

/-- Responses returned by the `chatwoot_webhook` endpoint (webhooks.py). -/
inductive WebhookResponse where
  | skipped (reason : String)
  | processing
  | successDialogue (dialogue_id : Option Nat)
  | successDeleted
  | errorMissingId
  | genericSuccess (event : String)
  | httpException (code : Nat)
deriving DecidableEq

/-- The argument tuple handed to `process_message_with_dify.apply_async`
(`src/app/api/webhooks.py:114`). -/
structure EnqueuedJob where
  message : Option String
  dify_conversation_id : Option String
  chatwoot_conversation_id : String
  conversation_status : String
  message_type : String
deriving DecidableEq

/-- Observable result of one webhook call: HTTP-level response, resulting
store, jobs enqueued, direct notifications sent from the handler
(`(conversation_id, text, private)`), and Dify deletions scheduled via
`background_tasks.add_task`. -/
structure WebhookOut where
  response : WebhookResponse
  store : List Dialogue
  enqueued : List EnqueuedJob
  notifications : List (Int × String × Bool)
  dify_deletions : List String
deriving DecidableEq

/-- `chatwoot_webhook` (`src/app/api/webhooks.py:80`). `now` is the wall clock,
`newId` the primary key the database would assign to an inserted row, and
`enqueueFails` models `apply_async` raising before acceptance (the only
fallible step of the `try` block modelled here); in that case the handler
best-effort notifies the conversation with
`BOT_CONVERSATION_OPENED_MESSAGE_EXTERNAL` and raises `HTTPException(500)`.

Branches mirrored from the source: the `agent_bot`/`"????"` sender skip, the
sentinel-prefix skip on `str(content)`, the upsert + enqueue for
`message_created`; upsert only for `conversation_created`/`conversation_updated`;
lookup, optional background Dify deletion (`if dialogue_to_delete.
dify_conversation_id:` — Python truthiness) and hard delete for
`conversation_deleted`; generic success otherwise. -/
def chatwoot_webhook (cfg : BotConfig) (w : ChatwootWebhook) (store : List Dialogue)
    (now newId : Nat) (enqueueFails : Bool) : WebhookOut :=
  if w.event == "message_created" then
    if w.sender_type == some "agent_bot" || w.sender_type == some "????" then
      ⟨.skipped "agent_bot message", store, [], [], []⟩
    else if pyStartsWith (pyStrOpt w.content) cfg.bot_conversation_opened_message_external
        || pyStartsWith (pyStrOpt w.content) cfg.bot_error_message_internal then
      ⟨.skipped "agent_bot status/error message", store, [], [], []⟩
    else
      let r := get_or_create_dialogue now newId w.to_dialogue_create store
      if enqueueFails then
        match w.conversation_id with
        | some cid =>
          ⟨.httpException 500, r.1, [],
            [(cid, cfg.bot_conversation_opened_message_external, false)], []⟩
        | none => ⟨.httpException 500, r.1, [], [], []⟩
      else
        ⟨.processing, r.1,
          [⟨w.content, r.2.dify_conversation_id, r.2.chatwoot_conversation_id,
            r.2.status, w.message_type⟩], [], []⟩
  else if w.event == "conversation_created" then
    match w.conversation with
    | none => ⟨.skipped "no conversation data", store, [], [], []⟩
    | some _ =>
      let r := get_or_create_dialogue now newId w.to_dialogue_create store
      ⟨.successDialogue r.2.id, r.1, [], [], []⟩
  else if w.event == "conversation_updated" then
    match w.conversation with
    | none => ⟨.skipped "no conversation data", store, [], [], []⟩
    | some _ =>
      let r := get_or_create_dialogue now newId w.to_dialogue_create store
      ⟨.successDialogue r.2.id, r.1, [], [], []⟩
  else if w.event == "conversation_deleted" then
    match w.conversation with
    | none => ⟨.skipped "no conversation data", store, [], [], []⟩
    | some conv =>
      let cid := toString conv.id
      match store.find? (matchesConvo cid) with
      | none => ⟨.skipped "dialogue not found", store, [], [], []⟩
      | some d =>
        let deletions :=
          match d.dify_conversation_id with
          | some s => if s == "" then [] else [s]
          | none => []
        ⟨.successDeleted, removeFirst (matchesConvo cid) store, [], [], deletions⟩
  else
    ⟨.genericSuccess w.event, store, [], [], []⟩

/-! ## Team cache (`src/app/api/chatwoot_actions.py:34-57`) -/

/-- The module-level mutable cache: `team_cache` (lower-cased name → id) and
`last_update_time` (a timestamp, 0 initially). -/
structure TeamCacheState where
  team_cache : List (String × Int)
  last_update_time : Nat
deriving DecidableEq

/-- The staleness condition of `get_team_id` (chatwoot_actions.py:55):
`not team_cache or (utcnow().timestamp() - last_update_time) > 24 * 3600`.
Evaluated *outside* `team_cache_lock`. -/
def cacheNeedsRefresh (now : Nat) (s : TeamCacheState) : Bool :=
  s.team_cache.isEmpty || decide (now - s.last_update_time > 24 * 3600)

/-- `update_team_cache` (chatwoot_actions.py:38): under `team_cache_lock`, call
`chatwoot.get_teams()`; on success replace the cache by the lower-cased
name → id mapping and set `last_update_time`; on failure log and re-raise,
leaving both globals untouched. `gw` is the outcome of the `get_teams` call. -/
def update_team_cache (now : Nat) (gw : Except Unit (List (String × Int)))
    (_s : TeamCacheState) : Except Unit TeamCacheState :=
  match gw with
  | .ok teams => .ok ⟨teams.map (fun t => (t.1.toLower, t.2)), now⟩
  | .error _ => .error ()

/-- `get_team_id` (chatwoot_actions.py:53) for a single caller: refresh when
the cache is empty or stale, then look the lower-cased name up. Returns
(result, final cache state, number of `get_teams` gateway calls); a failed
refresh propagates the error and leaves the state unchanged. -/
def get_team_id (now : Nat) (gw : Except Unit (List (String × Int)))
    (s : TeamCacheState) (team_name : String) :
    Except Unit (Option Int) × TeamCacheState × Nat :=
  if cacheNeedsRefresh now s then
    match update_team_cache now gw s with
    | .ok s' => (.ok (s'.team_cache.lookup team_name.toLower), s', 1)
    | .error _ => (.error (), s, 1)
  else
    (.ok (s.team_cache.lookup team_name.toLower), s, 0)

/-- Phase of one concurrent `get_team_id` caller: `start` (about to evaluate
the unguarded staleness check), `wantLock` (observed a stale cache, waiting on
`team_cache_lock` to run `update_team_cache`), `done`. -/
inductive ResolverPhase where
  | start
  | wantLock
  | done
deriving DecidableEq

/-- Shared state of `n` concurrent `get_team_id` callers: the module globals,
each caller's phase, and how many `get_teams` gateway calls were issued. -/
structure CacheMachine where
  shared : TeamCacheState
  phases : List ResolverPhase
  gatewayCalls : Nat
deriving DecidableEq

/-- One scheduler step of caller `i`. The staleness check runs outside the
lock, so it is its own step; the whole lock-guarded `update_team_cache` body is
a single atomic step (the lock serialises refreshes but does not re-check
staleness). -/
def cacheStep (now : Nat) (gw : Except Unit (List (String × Int)))
    (m : CacheMachine) (i : Nat) : CacheMachine :=
  match m.phases.get? i with
  | some .start =>
    if cacheNeedsRefresh now m.shared then
      { m with phases := m.phases.set i .wantLock }
    else
      { m with phases := m.phases.set i .done }
  | some .wantLock =>
    (match update_team_cache now gw m.shared with
     | .ok s' =>
       { shared := s', phases := m.phases.set i .done, gatewayCalls := m.gatewayCalls + 1 }
     | .error _ =>
       { m with phases := m.phases.set i .done, gatewayCalls := m.gatewayCalls + 1 })
  | _ => m

/-- Run a schedule (list of caller indices) over the concurrent cache machine. -/
def runSchedule (now : Nat) (gw : Except Unit (List (String × Int)))
    (m : CacheMachine) : List Nat → CacheMachine
  | [] => m
  | i :: rest => runSchedule now gw (cacheStep now gw m i) rest

/-- A posted chat message `(conversation_id, text, private)` whose text is the
conversation-opened sentinel and whose `private` flag is `False`. -/
def isOpenedPublic (cfg : BotConfig) (m : Int × String × Bool) : Bool :=
  m.2.1 == cfg.bot_conversation_opened_message_external && m.2.2 == false

/-! ## Helper lemmas -/

theorem updFirst_of_find?_none (p : Dialogue → Bool) (f : Dialogue → Dialogue) :
    ∀ store : List Dialogue, store.find? p = none → updFirst p f store = store := by
  intro store
  induction store with
  | nil => intro _; rfl
  | cons x xs ih =>
    intro h
    rw [List.find?_eq_none] at h
    have hx : p x = false := by
      have := h x (by simp)
      simpa using this
    have hxs : xs.find? p = none := by
      rw [List.find?_eq_none]
      intro a ha
      exact h a (by simp [ha])
    simp [updFirst, hx, ih hxs]

theorem updFirst_eq_self (p : Dialogue → Bool) (f : Dialogue → Dialogue) :
    ∀ (store : List Dialogue) (d0 : Dialogue),
      store.find? p = some d0 → f d0 = d0 → updFirst p f store = store := by
  intro store
  induction store with
  | nil => intro d0 h; simp [List.find?] at h
  | cons x xs ih =>
    intro d0 h hf
    by_cases hx : p x = true
    · rw [List.find?_cons_of_pos _ hx] at h
      cases h
      simp [updFirst, hx, hf]
    · have hx' : p x = false := by simpa using hx
      rw [List.find?_cons_of_neg _ (by simp [hx'])] at h
      simp [updFirst, hx', ih d0 h hf]

theorem removeFirst_length (p : Dialogue → Bool) :
    ∀ (store : List Dialogue) (d0 : Dialogue),
      store.find? p = some d0 → (removeFirst p store).length + 1 = store.length := by
  intro store
  induction store with
  | nil => intro d0 h; simp [List.find?] at h
  | cons x xs ih =>
    intro d0 h
    by_cases hx : p x = true
    · simp [removeFirst, hx]
    · have hx' : p x = false := by simpa using hx
      rw [List.find?_cons_of_neg _ (by simp [hx'])] at h
      simp [removeFirst, hx', ih d0 h]

theorem get_or_create_cons_pos (now newId : Nat) (data : DialogueCreate)
    (x : Dialogue) (xs : List Dialogue)
    (hx : matchesConvo data.chatwoot_conversation_id x = true) :
    get_or_create_dialogue now newId data (x :: xs) =
      ({ x with
          chatwoot_conversation_id := data.chatwoot_conversation_id
          status := data.status
          assignee_id := data.assignee_id
          updated_at := now } :: xs,
        { x with
          chatwoot_conversation_id := data.chatwoot_conversation_id
          status := data.status
          assignee_id := data.assignee_id
          updated_at := now }) := by
  simp [get_or_create_dialogue, hx]

theorem get_or_create_cons_neg (now newId : Nat) (data : DialogueCreate)
    (x : Dialogue) (xs : List Dialogue)
    (hx : matchesConvo data.chatwoot_conversation_id x = false) :
    get_or_create_dialogue now newId data (x :: xs) =
      (x :: (get_or_create_dialogue now newId data xs).1,
        (get_or_create_dialogue now newId data xs).2) := by
  simp [get_or_create_dialogue, hx]

theorem matchesConvo_update (data : DialogueCreate) (now : Nat) (x : Dialogue) :
    matchesConvo data.chatwoot_conversation_id
      { x with
        chatwoot_conversation_id := data.chatwoot_conversation_id
        status := data.status
        assignee_id := data.assignee_id
        updated_at := now } = true := by
  simp [matchesConvo]

theorem get_or_create_fields (now newId : Nat) (data : DialogueCreate) :
    ∀ store : List Dialogue,
      (get_or_create_dialogue now newId data store).2.chatwoot_conversation_id
          = data.chatwoot_conversation_id ∧
      (get_or_create_dialogue now newId data store).2.status = data.status ∧
      (get_or_create_dialogue now newId data store).2.assignee_id = data.assignee_id := by
  intro store
  induction store with
  | nil => exact ⟨rfl, rfl, rfl⟩
  | cons x xs ih =>
    by_cases hx : matchesConvo data.chatwoot_conversation_id x = true
    · rw [get_or_create_cons_pos now newId data x xs hx]
      exact ⟨rfl, rfl, rfl⟩
    · rw [get_or_create_cons_neg now newId data x xs (by simpa using hx)]
      exact ih

theorem get_or_create_find? (now newId : Nat) (data : DialogueCreate) :
    ∀ store : List Dialogue,
      (get_or_create_dialogue now newId data store).1.find?
          (matchesConvo data.chatwoot_conversation_id)
        = some (get_or_create_dialogue now newId data store).2 := by
  intro store
  induction store with
  | nil =>
    exact List.find?_cons_of_pos _ (by simp [matchesConvo])
  | cons x xs ih =>
    by_cases hx : matchesConvo data.chatwoot_conversation_id x = true
    · rw [get_or_create_cons_pos now newId data x xs hx]
      exact List.find?_cons_of_pos _ (matchesConvo_update data now x)
    · have hx' : matchesConvo data.chatwoot_conversation_id x = false := by simpa using hx
      rw [get_or_create_cons_neg now newId data x xs hx']
      rw [List.find?_cons_of_neg _ (by simp [hx'])]
      exact ih

theorem get_or_create_of_find?_none (now newId : Nat) (data : DialogueCreate) :
    ∀ store : List Dialogue,
      store.find? (matchesConvo data.chatwoot_conversation_id) = none →
      (get_or_create_dialogue now newId data store).1
        = store ++ [(get_or_create_dialogue now newId data store).2] := by
  intro store
  induction store with
  | nil => intro _; rfl
  | cons x xs ih =>
    intro h
    rw [List.find?_eq_none] at h
    have hx : matchesConvo data.chatwoot_conversation_id x = false := by
      have := h x (by simp)
      simpa using this
    have hxs : xs.find? (matchesConvo data.chatwoot_conversation_id) = none := by
      rw [List.find?_eq_none]
      intro a ha
      exact h a (by simp [ha])
    rw [get_or_create_cons_neg now newId data x xs hx]
    simpa using ih hxs

theorem get_or_create_of_find?_some (now newId : Nat) (data : DialogueCreate) :
    ∀ (store : List Dialogue) (d0 : Dialogue),
      store.find? (matchesConvo data.chatwoot_conversation_id) = some d0 →
      (get_or_create_dialogue now newId data store).1.length = store.length ∧
      countMatching (get_or_create_dialogue now newId data store).1
          data.chatwoot_conversation_id
        = countMatching store data.chatwoot_conversation_id := by
  intro store
  induction store with
  | nil => intro d0 h; simp [List.find?] at h
  | cons x xs ih =>
    intro d0 h
    by_cases hx : matchesConvo data.chatwoot_conversation_id x = true
    · rw [get_or_create_cons_pos now newId data x xs hx]
      refine ⟨rfl, ?_⟩
      simp [countMatching, List.countP_cons, hx, matchesConvo_update data now x]
    · have hx' : matchesConvo data.chatwoot_conversation_id x = false := by simpa using hx
      rw [List.find?_cons_of_neg _ (by simp [hx'])] at h
      obtain ⟨ihl, ihc⟩ := ih d0 h
      rw [get_or_create_cons_neg now newId data x xs hx']
      refine ⟨by simpa using ihl, ?_⟩
      simp [countMatching, List.countP_cons, hx'] at ihc ⊢
      exact ihc

theorem get_or_create_filter_not (now newId : Nat) (data : DialogueCreate) :
    ∀ store : List Dialogue,
      (get_or_create_dialogue now newId data store).1.filter
          (fun d => !(matchesConvo data.chatwoot_conversation_id d))
        = store.filter (fun d => !(matchesConvo data.chatwoot_conversation_id d)) := by
  intro store
  induction store with
  | nil =>
    simp [get_or_create_dialogue, List.filter_cons, matchesConvo]
  | cons x xs ih =>
    by_cases hx : matchesConvo data.chatwoot_conversation_id x = true
    · rw [get_or_create_cons_pos now newId data x xs hx]
      simp [List.filter_cons, hx, matchesConvo_update data now x]
    · have hx' : matchesConvo data.chatwoot_conversation_id x = false := by simpa using hx
      rw [get_or_create_cons_neg now newId data x xs hx']
      simp [List.filter_cons, hx', ih]

theorem countMatching_of_find?_none (store : List Dialogue) (cid : String)
    (h : store.find? (matchesConvo cid) = none) : countMatching store cid = 0 := by
  rw [List.find?_eq_none] at h
  simpa [countMatching, List.countP_eq_zero] using h

theorem countMatching_pos_of_find?_some (store : List Dialogue) (cid : String)
    (d0 : Dialogue) (h : store.find? (matchesConvo cid) = some d0) :
    0 < countMatching store cid := by
  have hmem := List.mem_of_find?_eq_some h
  have hp := List.find?_some h
  exact List.countP_pos_iff.mpr ⟨d0, hmem, hp⟩

theorem runTaskAux_step (cfg : BotConfig) (mr : Nat) (m : String)
    (dify chat : Option String) (oracle : Nat → GatewayBehavior) (now fuel retries : Nat)
    (store : List Dialogue) :
    runTaskAux cfg mr m dify chat oracle now (fuel + 1) retries store =
      (let step := process_message_with_dify_exec cfg retries mr m dify chat
        (oracle retries) store now
      match step.1 with
      | .returned v => (.succeeded v, step.2)
      | .raised => (.failed, step.2)
      | .retryScheduled =>
        let rest := runTaskAux cfg mr m dify chat oracle now fuel (retries + 1) step.2.store
        (rest.1,
          ⟨step.2.gatewayCalls + rest.2.gatewayCalls,
           step.2.statusToggles ++ rest.2.statusToggles,
           step.2.apologies ++ rest.2.apologies,
           rest.2.store⟩)) := rfl

/-! ## Claim theorems -/

/-- C1: evaluation of the retry-bound claim at its own scenario. With a prior
assistant conversation id supplied and a gateway returning HTTP 404 on every
attempt, the task performs 4 gateway calls (the initial attempt plus
`max_retries = 3` retries, not 3 calls total) and then fails — so the error
continuation is invoked — but performs *no* status transition and posts *no*
apology: on the final attempt Celery's `retry(exc=e, ...)` re-raises `e`
itself, which neither the `except MaxRetriesExceededError` block nor any
sibling `except` clause of the same `try` can catch, so the cleanup the claim
(and the source's own comments) describe never runs. -/
theorem notfound_exhaustion_four_calls_no_cleanup :
    (run_process_message_with_dify ⟨"[BOT-OPEN]", "[BOT-ERR]"⟩ "Hello"
        (some "D1") (some "42") (fun _ => .httpError 404) 100
        [⟨some 1, "42", some "D1", "open", none, 0, 0⟩]).2.gatewayCalls = 4 ∧
    (run_process_message_with_dify ⟨"[BOT-OPEN]", "[BOT-ERR]"⟩ "Hello"
        (some "D1") (some "42") (fun _ => .httpError 404) 100
        [⟨some 1, "42", some "D1", "open", none, 0, 0⟩]).1 = .failed ∧
    celeryDispatch (run_process_message_with_dify ⟨"[BOT-OPEN]", "[BOT-ERR]"⟩ "Hello"
        (some "D1") (some "42") (fun _ => .httpError 404) 100
        [⟨some 1, "42", some "D1", "open", none, 0, 0⟩]).1 = .linkError ∧
    (run_process_message_with_dify ⟨"[BOT-OPEN]", "[BOT-ERR]"⟩ "Hello"
        (some "D1") (some "42") (fun _ => .httpError 404) 100
        [⟨some 1, "42", some "D1", "open", none, 0, 0⟩]).2.statusToggles = [] ∧
    (run_process_message_with_dify ⟨"[BOT-OPEN]", "[BOT-ERR]"⟩ "Hello"
        (some "D1") (some "42") (fun _ => .httpError 404) 100
        [⟨some 1, "42", some "D1", "open", none, 0, 0⟩]).2.apologies = [] := by
  refine ⟨?_, ?_, ?_, ?_, ?_⟩ <;> rfl

/-- C2: evaluation of the fresh-creation 404 claim at its own scenario. With no
prior assistant conversation id, a 404 is classified as generic `DifyApiError`
(never `DifyConversationNotFoundError`), and the run makes exactly one gateway
call (zero retries) — but instead of the claimed terminal failure path, the
`except DifyApiError` clause ends with `pass`: no status transition, no
apology, and the task returns `None` as a normal success, dispatching the
success continuation. -/
theorem creation_404_no_retry_swallowed :
    send_chat_message none (.httpError 404) = .error .apiError ∧
    send_chat_message (some "") (.httpError 404) = .error .apiError ∧
    (run_process_message_with_dify ⟨"[BOT-OPEN]", "[BOT-ERR]"⟩ "Hello"
        none (some "42") (fun _ => .httpError 404) 100 []).2.gatewayCalls = 1 ∧
    (run_process_message_with_dify ⟨"[BOT-OPEN]", "[BOT-ERR]"⟩ "Hello"
        none (some "42") (fun _ => .httpError 404) 100 []).1 = .succeeded .pyNone ∧
    celeryDispatch (run_process_message_with_dify ⟨"[BOT-OPEN]", "[BOT-ERR]"⟩ "Hello"
        none (some "42") (fun _ => .httpError 404) 100 []).1 = .link .pyNone ∧
    (run_process_message_with_dify ⟨"[BOT-OPEN]", "[BOT-ERR]"⟩ "Hello"
        none (some "42") (fun _ => .httpError 404) 100 []).2.statusToggles = [] ∧
    (run_process_message_with_dify ⟨"[BOT-OPEN]", "[BOT-ERR]"⟩ "Hello"
        none (some "42") (fun _ => .httpError 404) 100 []).2.apologies = [] := by
  refine ⟨?_, ?_, ?_, ?_, ?_, ?_, ?_⟩ <;> rfl

/-- C3 counterexample: the claim quantifies over *every* already-set value A1,
but the guard in `update_dialogue_dify_id_sync` is Python truthiness
(`if not dialogue.dify_conversation_id`), so a dialogue whose stored assistant
id is the empty string `""` (a set value) is overwritten by `"A2"` — the
stored value does not stay at A1 and `updated_at` changes too. -/
theorem write_once_empty_string_counterexample :
    update_dialogue_dify_id_sync 5
        [⟨some 1, "42", some "", "pending", none, 0, 0⟩] "42" "A2"
      = [⟨some 1, "42", some "A2", "pending", none, 0, 5⟩] ∧
    (some "A2" : Option String) ≠ some "" := by
  exact ⟨rfl, by decide⟩

/-- C3 (amended): when the stored assistant conversation id is a *truthy*
value A1 (any non-empty string), a pipeline attempt to persist a different id
leaves the whole store — the stored value and every other field of every
dialogue — unchanged. -/
theorem dify_id_write_once_when_truthy (now : Nat) (store : List Dialogue)
    (cid a2 : String) (d0 : Dialogue)
    (hfind : store.find? (matchesConvo cid) = some d0)
    (htruthy : optStrTruthy d0.dify_conversation_id = true) :
    update_dialogue_dify_id_sync now store cid a2 = store := by
  unfold update_dialogue_dify_id_sync
  exact updFirst_eq_self _ _ store d0 hfind (by simp [htruthy])

/-- C3 witness: the amended write-once statement applied to a store holding
`dify_conversation_id = some "A1"`. -/
theorem dify_id_write_once_when_truthy_witness :
    update_dialogue_dify_id_sync 5
        [⟨some 1, "42", some "A1", "open", none, 0, 0⟩] "42" "A2"
      = [⟨some 1, "42", some "A1", "open", none, 0, 0⟩] := by
  exact dify_id_write_once_when_truthy 5 _ "42" "A2"
    ⟨some 1, "42", some "A1", "open", none, 0, 0⟩ (by decide) (by decide)

/-- C4: self-generated-message suppression, both layers. (1) A
`message_created` webhook whose sender type is `"agent_bot"` or whose content
starts with either sentinel prefix is answered `{"status": "skipped", ...}`,
with no dialogue upsert and no job enqueued. (2) Independently, a pipeline job
whose message text starts with either sentinel prefix returns the skip
dictionary as a normal result with zero gateway calls and no side effects. -/
theorem self_generated_messages_skipped :
    (∀ (cfg : BotConfig) (w : ChatwootWebhook) (store : List Dialogue)
        (now newId : Nat) (enqueueFails : Bool),
      w.event = "message_created" →
      (w.sender_type = some "agent_bot" ∨
        pyStartsWith (pyStrOpt w.content) cfg.bot_conversation_opened_message_external = true ∨
        pyStartsWith (pyStrOpt w.content) cfg.bot_error_message_internal = true) →
      (chatwoot_webhook cfg w store now newId enqueueFails).enqueued = [] ∧
      (chatwoot_webhook cfg w store now newId enqueueFails).store = store ∧
      ((chatwoot_webhook cfg w store now newId enqueueFails).response
          = .skipped "agent_bot message" ∨
        (chatwoot_webhook cfg w store now newId enqueueFails).response
          = .skipped "agent_bot status/error message")) ∧
    (∀ (cfg : BotConfig) (m : String) (dify chat : Option String)
        (oracle : Nat → GatewayBehavior) (now : Nat) (store : List Dialogue),
      (pyStartsWith m cfg.bot_conversation_opened_message_external = true ∨
        pyStartsWith m cfg.bot_error_message_internal = true) →
      run_process_message_with_dify cfg m dify chat oracle now store
        = (.succeeded .skippedDict, ⟨0, [], [], store⟩)) := by
  constructor
  · intro cfg w store now newId ef hev hskip
    by_cases hs : (w.sender_type == some "agent_bot" || w.sender_type == some "????") = true
    · simp [chatwoot_webhook, hev, hs]
    · have hs' : (w.sender_type == some "agent_bot" || w.sender_type == some "????") = false := by
        simpa using hs
      rcases hskip with h | h | h
      · exact absurd (by simp [h]) hs
      · simp [chatwoot_webhook, hev, hs', h]
      · simp [chatwoot_webhook, hev, hs', h]
  · intro cfg m dify chat oracle now store h
    have hcond : (pyStartsWith m cfg.bot_conversation_opened_message_external
        || pyStartsWith m cfg.bot_error_message_internal) = true := by
      rcases h with h | h <;> simp [h]
    unfold run_process_message_with_dify
    rw [runTaskAux_step cfg 3 m dify chat oracle now 3 0 store]
    simp [process_message_with_dify_exec, hcond]

/-- C4 witness: the suppression theorem applied to a concrete `agent_bot`
webhook event and to a concrete sentinel-prefixed pipeline message. -/
theorem self_generated_messages_skipped_witness :
    ((chatwoot_webhook ⟨"[BOT-OPEN]", "[BOT-ERR]"⟩
        ⟨"message_created", "incoming", some ⟨some 9, some "agent_bot"⟩, none, none,
          some "hi", none⟩ [] 0 1 false).enqueued = [] ∧
      (chatwoot_webhook ⟨"[BOT-OPEN]", "[BOT-ERR]"⟩
        ⟨"message_created", "incoming", some ⟨some 9, some "agent_bot"⟩, none, none,
          some "hi", none⟩ [] 0 1 false).store = [] ∧
      ((chatwoot_webhook ⟨"[BOT-OPEN]", "[BOT-ERR]"⟩
          ⟨"message_created", "incoming", some ⟨some 9, some "agent_bot"⟩, none, none,
            some "hi", none⟩ [] 0 1 false).response = .skipped "agent_bot message" ∨
        (chatwoot_webhook ⟨"[BOT-OPEN]", "[BOT-ERR]"⟩
          ⟨"message_created", "incoming", some ⟨some 9, some "agent_bot"⟩, none, none,
            some "hi", none⟩ [] 0 1 false).response
          = .skipped "agent_bot status/error message")) ∧
    run_process_message_with_dify ⟨"[BOT-OPEN]", "[BOT-ERR]"⟩ "[BOT-ERR] oops"
        none (some "42") (fun _ => .httpError 500) 0 []
      = (.succeeded .skippedDict, ⟨0, [], [], []⟩) := by
  constructor
  · exact self_generated_messages_skipped.1 ⟨"[BOT-OPEN]", "[BOT-ERR]"⟩
      ⟨"message_created", "incoming", some ⟨some 9, some "agent_bot"⟩, none, none,
        some "hi", none⟩ [] 0 1 false rfl (Or.inl rfl)
  · exact self_generated_messages_skipped.2 ⟨"[BOT-OPEN]", "[BOT-ERR]"⟩ "[BOT-ERR] oops"
      none (some "42") (fun _ => .httpError 500) 0 [] (Or.inr (by decide))

/-- C5 counterexample: the claim also covers runs whose conversation-not-found
retries are exhausted, asserting they end as a normal `None` success. At a
concrete such run (prior id `"D9"`, gateway always 404) the task instead ends
`failed` — Celery's `retry(exc=e, ...)` re-raises `e` on exhaustion, which no
clause of the `try` can catch — so the error continuation, not the success
continuation, is invoked. -/
theorem notfound_exhaustion_is_failure_not_none :
    (run_process_message_with_dify ⟨"[O]", "[E]"⟩ "Ping" (some "D9") (some "7")
        (fun _ => .httpError 404) 50 []).1 = .failed ∧
    celeryDispatch (run_process_message_with_dify ⟨"[O]", "[E]"⟩ "Ping" (some "D9") (some "7")
        (fun _ => .httpError 404) 50 []).1 = .linkError ∧
    (Dispatch.linkError ≠ .link .pyNone) := by
  exact ⟨rfl, rfl, by decide⟩

/-- C5 (amended): (1) when the gateway raises a generic (non-not-found) API
error, the `except DifyApiError` clause ends with `pass`, the task falls out
of the `try` statement and returns Python `None` as a normal success, and the
scheduler invokes the success continuation with the `None` payload — with one
single gateway call and no cleanup side effects. (2) When a prior assistant id
is supplied and the gateway raises not-found on every attempt, the exhausted
`retry(exc=e, ...)` re-raises the original exception, so the task *fails*
after 4 gateway calls and the error continuation is invoked instead. -/
theorem swallowed_api_error_returns_none :
    (∀ (cfg : BotConfig) (m : String) (dify chat : Option String)
        (gw0 : GatewayBehavior) (now : Nat) (store : List Dialogue),
      pyStartsWith m cfg.bot_conversation_opened_message_external = false →
      pyStartsWith m cfg.bot_error_message_internal = false →
      send_chat_message dify gw0 = .error .apiError →
      run_process_message_with_dify cfg m dify chat (fun _ => gw0) now store
        = (.succeeded .pyNone, ⟨1, [], [], store⟩) ∧
      celeryDispatch (run_process_message_with_dify cfg m dify chat
          (fun _ => gw0) now store).1 = .link .pyNone) ∧
    (∀ (cfg : BotConfig) (m : String) (dify chat : Option String)
        (now : Nat) (store : List Dialogue),
      pyStartsWith m cfg.bot_conversation_opened_message_external = false →
      pyStartsWith m cfg.bot_error_message_internal = false →
      optStrTruthy dify = true →
      run_process_message_with_dify cfg m dify chat (fun _ => .httpError 404) now store
        = (.failed, ⟨4, [], [], store⟩) ∧
      celeryDispatch (run_process_message_with_dify cfg m dify chat
          (fun _ => .httpError 404) now store).1 = .linkError) := by
  constructor
  · intro cfg m dify chat gw0 now store h1 h2 hgw
    have hrun : run_process_message_with_dify cfg m dify chat (fun _ => gw0) now store
        = (.succeeded .pyNone, ⟨1, [], [], store⟩) := by
      unfold run_process_message_with_dify
      rw [runTaskAux_step cfg 3 m dify chat (fun _ => gw0) now 3 0 store]
      simp [process_message_with_dify_exec, h1, h2, hgw]
    refine ⟨hrun, ?_⟩
    rw [hrun]
    rfl
  · intro cfg m dify chat now store h1 h2 hd
    have hsend : send_chat_message dify (.httpError 404) = .error .conversationNotFound := by
      simp [send_chat_message, hd]
    have hstepR : ∀ r : Nat, r + 1 ≤ 3 → ∀ st : List Dialogue,
        process_message_with_dify_exec cfg r 3 m dify chat (.httpError 404) st now
          = (.retryScheduled, ⟨1, [], [], st⟩) := by
      intro r hr st
      simp [process_message_with_dify_exec, h1, h2, hsend, celery_retry_schedules, hr]
    have hstepF : ∀ r : Nat, ¬(r + 1 ≤ 3) → ∀ st : List Dialogue,
        process_message_with_dify_exec cfg r 3 m dify chat (.httpError 404) st now
          = (.raised, ⟨1, [], [], st⟩) := by
      intro r hr st
      simp [process_message_with_dify_exec, h1, h2, hsend, celery_retry_schedules, hr]
    have hrun : run_process_message_with_dify cfg m dify chat
        (fun _ => .httpError 404) now store = (.failed, ⟨4, [], [], store⟩) := by
      unfold run_process_message_with_dify
      rw [runTaskAux_step cfg 3 m dify chat (fun _ => .httpError 404) now 3 0 store]
      simp only [hstepR 0 (by norm_num) store]
      rw [runTaskAux_step cfg 3 m dify chat (fun _ => .httpError 404) now 2 (0 + 1) store]
      simp only [hstepR (0 + 1) (by norm_num) store]
      rw [runTaskAux_step cfg 3 m dify chat (fun _ => .httpError 404) now 1 (0 + 1 + 1) store]
      simp only [hstepR (0 + 1 + 1) (by norm_num) store]
      rw [runTaskAux_step cfg 3 m dify chat (fun _ => .httpError 404) now 0
        (0 + 1 + 1 + 1) store]
      simp only [hstepF (0 + 1 + 1 + 1) (by norm_num) store]
      simp
    refine ⟨hrun, ?_⟩
    rw [hrun]
    rfl

/-- C5 witness: the amended statement applied to a concrete generic-error run
and a concrete not-found-exhaustion run. -/
theorem swallowed_api_error_returns_none_witness :
    (run_process_message_with_dify ⟨"[W-OPEN]", "[W-ERR]"⟩ "Hey" none (some "11")
        (fun _ => .httpError 500) 3 [] = (.succeeded .pyNone, ⟨1, [], [], []⟩) ∧
      celeryDispatch (run_process_message_with_dify ⟨"[W-OPEN]", "[W-ERR]"⟩ "Hey" none
          (some "11") (fun _ => .httpError 500) 3 []).1 = .link .pyNone) ∧
    (run_process_message_with_dify ⟨"[W-OPEN]", "[W-ERR]"⟩ "Hey" (some "D2") (some "11")
        (fun _ => .httpError 404) 3 [] = (.failed, ⟨4, [], [], []⟩) ∧
      celeryDispatch (run_process_message_with_dify ⟨"[W-OPEN]", "[W-ERR]"⟩ "Hey"
          (some "D2") (some "11") (fun _ => .httpError 404) 3 []).1 = .linkError) := by
  constructor
  · exact swallowed_api_error_returns_none.1 ⟨"[W-OPEN]", "[W-ERR]"⟩ "Hey" none (some "11")
      (.httpError 500) 3 [] (by decide) (by decide) rfl
  · exact swallowed_api_error_returns_none.2 ⟨"[W-OPEN]", "[W-ERR]"⟩ "Hey" (some "D2")
      (some "11") 3 [] (by decide) (by decide) (by decide)

/-- C6 counterexample: the claim says a malformed payload (here Python `None`,
exactly what the task returns on a swallowed error, or the skip dictionary)
makes the continuation fall back to the fixed apologetic default and still
post a public message. In the code `DifyResponse(**dify_result)` raises, the
`except` clause re-raises, and *nothing* is posted — in particular not the
`DifyResponse.error_response` text, which is never used. -/
theorem malformed_payload_posts_nothing :
    (handle_dify_response .pyNone 7 false).sent = [] ∧
    (handle_dify_response .pyNone 7 false).raised = true ∧
    (handle_dify_response .skippedDict 7 false).sent = [] ∧
    (handle_dify_response (.result ⟨some "D1", none⟩) 7 false).sent = [] ∧
    (handle_dify_response .pyNone 7 false).sent
      ≠ [(7, DifyResponse.error_response_answer, false)] := by
  exact ⟨rfl, rfl, rfl, rfl, by decide⟩

/-- C6 (amended): when the payload validates (it carries the required `answer`
field), the continuation posts exactly that answer publicly (`private=False`)
and re-raises precisely when delivery fails — a delivery failure is never
silently swallowed; when the payload is malformed or lacks `answer`, the
continuation posts nothing and raises the validation error as its own
failure (no fallback to the apologetic default is performed). -/
theorem relay_posts_answer_or_raises (payload : TaskReturn) (conversation_id : Int)
    (deliveryFails : Bool) :
    (∀ a : String, difyResponseAnswer payload = some a →
      (handle_dify_response payload conversation_id deliveryFails).sent
          = [(conversation_id, a, false)] ∧
      (handle_dify_response payload conversation_id deliveryFails).raised = deliveryFails) ∧
    (difyResponseAnswer payload = none →
      handle_dify_response payload conversation_id deliveryFails = ⟨[], true⟩) ∧
    (deliveryFails = true →
      (handle_dify_response payload conversation_id deliveryFails).raised = true) := by
  refine ⟨?_, ?_, ?_⟩
  · intro a ha
    cases deliveryFails <;> simp [handle_dify_response, ha]
  · intro ha
    simp [handle_dify_response, ha]
  · intro hd
    subst hd
    match hv : difyResponseAnswer payload with
    | none => simp [handle_dify_response, hv]
    | some a => simp [handle_dify_response, hv]

/-- C6 witness: the amended relay statement applied to a well-formed payload
with answer `"Hi there"` under both delivery outcomes, and to the `None`
payload. -/
theorem relay_posts_answer_or_raises_witness :
    ((handle_dify_response (.result ⟨some "A1", some "Hi there"⟩) 7 false).sent
        = [(7, "Hi there", false)] ∧
      (handle_dify_response (.result ⟨some "A1", some "Hi there"⟩) 7 false).raised = false) ∧
    (handle_dify_response (.result ⟨some "A1", some "Hi there"⟩) 7 true).raised = true ∧
    handle_dify_response .pyNone 7 true = ⟨[], true⟩ := by
  refine ⟨?_, ?_, ?_⟩
  · exact (relay_posts_answer_or_raises (.result ⟨some "A1", some "Hi there"⟩) 7 false).1
      "Hi there" rfl
  · exact (relay_posts_answer_or_raises (.result ⟨some "A1", some "Hi there"⟩) 7 true).2.2 rfl
  · exact (relay_posts_answer_or_raises .pyNone 7 true).2.1 rfl

/-- C7: upsert idempotence of `conversation_created` handling. Starting from
any store holding at most one row for the event's helpdesk conversation id,
the first processing leaves exactly one row for that id; a second processing
of the same event leaves exactly one row, does not change the store's size
(no duplicate), rewrites the mutable fields (`status`, `assignee_id`) of that
row from the event, and leaves every non-matching row untouched. -/
theorem conversation_created_upsert_idempotent
    (cfg : BotConfig) (w : ChatwootWebhook) (store : List Dialogue)
    (now1 now2 id1 id2 : Nat) (conv : ChatwootConversation)
    (hev : w.event = "conversation_created") (hconv : w.conversation = some conv)
    (hcount : countMatching store w.to_dialogue_create.chatwoot_conversation_id ≤ 1) :
    countMatching (chatwoot_webhook cfg w store now1 id1 false).store
        w.to_dialogue_create.chatwoot_conversation_id = 1 ∧
    countMatching (chatwoot_webhook cfg w
          (chatwoot_webhook cfg w store now1 id1 false).store now2 id2 false).store
        w.to_dialogue_create.chatwoot_conversation_id = 1 ∧
    (chatwoot_webhook cfg w (chatwoot_webhook cfg w store now1 id1 false).store
        now2 id2 false).store.length
      = (chatwoot_webhook cfg w store now1 id1 false).store.length ∧
    ((chatwoot_webhook cfg w (chatwoot_webhook cfg w store now1 id1 false).store
          now2 id2 false).store.find?
        (matchesConvo w.to_dialogue_create.chatwoot_conversation_id)).map Dialogue.status
      = some w.to_dialogue_create.status ∧
    ((chatwoot_webhook cfg w (chatwoot_webhook cfg w store now1 id1 false).store
          now2 id2 false).store.find?
        (matchesConvo w.to_dialogue_create.chatwoot_conversation_id)).map Dialogue.assignee_id
      = some w.to_dialogue_create.assignee_id ∧
    (chatwoot_webhook cfg w (chatwoot_webhook cfg w store now1 id1 false).store
        now2 id2 false).store.filter
        (fun d => !(matchesConvo w.to_dialogue_create.chatwoot_conversation_id d))
      = store.filter
        (fun d => !(matchesConvo w.to_dialogue_create.chatwoot_conversation_id d)) := by
  have hred : ∀ (st : List Dialogue) (nw nid : Nat),
      (chatwoot_webhook cfg w st nw nid false).store
        = (get_or_create_dialogue nw nid w.to_dialogue_create st).1 := by
    intro st nw nid
    simp [chatwoot_webhook, hev, hconv]
  simp only [hred]
  have hc1 : countMatching (get_or_create_dialogue now1 id1 w.to_dialogue_create store).1
      w.to_dialogue_create.chatwoot_conversation_id = 1 := by
    cases hf : store.find? (matchesConvo w.to_dialogue_create.chatwoot_conversation_id) with
    | none =>
      have h0 := countMatching_of_find?_none store _ hf
      have happ := get_or_create_of_find?_none now1 id1 w.to_dialogue_create store hf
      have hm : matchesConvo w.to_dialogue_create.chatwoot_conversation_id
          (get_or_create_dialogue now1 id1 w.to_dialogue_create store).2 = true := by
        simp [matchesConvo, (get_or_create_fields now1 id1 w.to_dialogue_create store).1]
      rw [happ]
      simp only [countMatching, List.countP_append] at h0 ⊢
      simp [h0, hm]
    | some d0 =>
      have hpos := countMatching_pos_of_find?_some store _ d0 hf
      have hpre := (get_or_create_of_find?_some now1 id1 w.to_dialogue_create store d0 hf).2
      omega
  have hfind1 := get_or_create_find? now1 id1 w.to_dialogue_create store
  have hpre2 := get_or_create_of_find?_some now2 id2 w.to_dialogue_create
    (get_or_create_dialogue now1 id1 w.to_dialogue_create store).1
    (get_or_create_dialogue now1 id1 w.to_dialogue_create store).2 hfind1
  have hfind2 := get_or_create_find? now2 id2 w.to_dialogue_create
    (get_or_create_dialogue now1 id1 w.to_dialogue_create store).1
  have hfields2 := get_or_create_fields now2 id2 w.to_dialogue_create
    (get_or_create_dialogue now1 id1 w.to_dialogue_create store).1
  refine ⟨hc1, ?_, hpre2.1, ?_, ?_, ?_⟩
  · rw [hpre2.2, hc1]
  · rw [hfind2]
    simp [hfields2.2.1]
  · rw [hfind2]
    simp [hfields2.2.2]
  · rw [get_or_create_filter_not now2 id2 w.to_dialogue_create,
      get_or_create_filter_not now1 id1 w.to_dialogue_create]

/-- C7 witness: the idempotence theorem applied to a concrete
`conversation_created` event over the empty store. -/
theorem conversation_created_upsert_idempotent_witness :
    countMatching (chatwoot_webhook ⟨"[B1]", "[B2]"⟩
        ⟨"conversation_created", "incoming", none, none,
          some ⟨5, "open", none, ⟨some 3⟩⟩, none, none⟩ [] 10 1 false).store "5" = 1 ∧
    countMatching (chatwoot_webhook ⟨"[B1]", "[B2]"⟩
        ⟨"conversation_created", "incoming", none, none,
          some ⟨5, "open", none, ⟨some 3⟩⟩, none, none⟩
        (chatwoot_webhook ⟨"[B1]", "[B2]"⟩
          ⟨"conversation_created", "incoming", none, none,
            some ⟨5, "open", none, ⟨some 3⟩⟩, none, none⟩ [] 10 1 false).store
        20 2 false).store "5" = 1 := by
  have h := conversation_created_upsert_idempotent ⟨"[B1]", "[B2]"⟩
    ⟨"conversation_created", "incoming", none, none,
      some ⟨5, "open", none, ⟨some 3⟩⟩, none, none⟩ [] 10 20 1 2
    ⟨5, "open", none, ⟨some 3⟩⟩ rfl rfl (by decide)
  exact ⟨h.1, h.2.1⟩

/-- C8: `conversation_deleted` cascade. If no dialogue is stored for the
event's helpdesk conversation id, the handler is a no-op on the store and
schedules no downstream deletion; if the stored dialogue carries a non-empty
assistant conversation id, exactly one background deletion of that id is
scheduled and the local row is hard-deleted; if it carries none (absent or
empty — Python truthiness), zero deletions are scheduled and the row is still
hard-deleted. -/
theorem conversation_deleted_cascade
    (cfg : BotConfig) (w : ChatwootWebhook) (store : List Dialogue)
    (now newId : Nat) (enqueueFails : Bool) (conv : ChatwootConversation)
    (hev : w.event = "conversation_deleted") (hconv : w.conversation = some conv) :
    (store.find? (matchesConvo (toString conv.id)) = none →
      (chatwoot_webhook cfg w store now newId enqueueFails).store = store ∧
      (chatwoot_webhook cfg w store now newId enqueueFails).dify_deletions = [] ∧
      (chatwoot_webhook cfg w store now newId enqueueFails).response
        = .skipped "dialogue not found") ∧
    (∀ (d : Dialogue) (s : String),
      store.find? (matchesConvo (toString conv.id)) = some d →
      d.dify_conversation_id = some s → s ≠ "" →
      (chatwoot_webhook cfg w store now newId enqueueFails).dify_deletions = [s] ∧
      (chatwoot_webhook cfg w store now newId enqueueFails).store
        = removeFirst (matchesConvo (toString conv.id)) store ∧
      (chatwoot_webhook cfg w store now newId enqueueFails).store.length + 1
        = store.length ∧
      (chatwoot_webhook cfg w store now newId enqueueFails).response = .successDeleted) ∧
    (∀ d : Dialogue,
      store.find? (matchesConvo (toString conv.id)) = some d →
      optStrTruthy d.dify_conversation_id = false →
      (chatwoot_webhook cfg w store now newId enqueueFails).dify_deletions = [] ∧
      (chatwoot_webhook cfg w store now newId enqueueFails).store
        = removeFirst (matchesConvo (toString conv.id)) store ∧
      (chatwoot_webhook cfg w store now newId enqueueFails).store.length + 1
        = store.length) := by
  refine ⟨?_, ?_, ?_⟩
  · intro hf
    simp [chatwoot_webhook, hev, hconv, hf]
  · intro d s hf hd hs
    have hlen := removeFirst_length (matchesConvo (toString conv.id)) store d hf
    have hsb : (s == "") = false := by simpa using hs
    refine ⟨?_, ?_, ?_, ?_⟩ <;>
      simp [chatwoot_webhook, hev, hconv, hf, hd, hsb, hlen]
  · intro d hf hd
    have hlen := removeFirst_length (matchesConvo (toString conv.id)) store d hf
    refine ⟨?_, ?_, ?_⟩
    · cases hdi : d.dify_conversation_id with
      | none => simp [chatwoot_webhook, hev, hconv, hf, hdi]
      | some t =>
        have ht : (t == "") = true := by
          rw [hdi] at hd
          simpa [optStrTruthy] using hd
        simp [chatwoot_webhook, hev, hconv, hf, hdi, ht]
    · simp [chatwoot_webhook, hev, hconv, hf]
    · simpa [chatwoot_webhook, hev, hconv, hf] using hlen

/-- C8 witness: the cascade theorem applied to a concrete store in all three
situations (no row; row with assistant id `"D1"`; row with no assistant id). -/
theorem conversation_deleted_cascade_witness :
    ((chatwoot_webhook ⟨"[B1]", "[B2]"⟩
        ⟨"conversation_deleted", "incoming", none, none,
          some ⟨7, "open", none, ⟨none⟩⟩, none, none⟩ [] 0 1 false).store = [] ∧
      (chatwoot_webhook ⟨"[B1]", "[B2]"⟩
        ⟨"conversation_deleted", "incoming", none, none,
          some ⟨7, "open", none, ⟨none⟩⟩, none, none⟩ [] 0 1 false).dify_deletions = []) ∧
    ((chatwoot_webhook ⟨"[B1]", "[B2]"⟩
        ⟨"conversation_deleted", "incoming", none, none,
          some ⟨7, "open", none, ⟨none⟩⟩, none, none⟩
        [⟨some 1, "7", some "D1", "open", none, 0, 0⟩] 0 1 false).dify_deletions = ["D1"] ∧
      (chatwoot_webhook ⟨"[B1]", "[B2]"⟩
        ⟨"conversation_deleted", "incoming", none, none,
          some ⟨7, "open", none, ⟨none⟩⟩, none, none⟩
        [⟨some 1, "7", some "D1", "open", none, 0, 0⟩] 0 1 false).store = []) ∧
    ((chatwoot_webhook ⟨"[B1]", "[B2]"⟩
        ⟨"conversation_deleted", "incoming", none, none,
          some ⟨7, "open", none, ⟨none⟩⟩, none, none⟩
        [⟨some 1, "7", none, "open", none, 0, 0⟩] 0 1 false).dify_deletions = [] ∧
      (chatwoot_webhook ⟨"[B1]", "[B2]"⟩
        ⟨"conversation_deleted", "incoming", none, none,
          some ⟨7, "open", none, ⟨none⟩⟩, none, none⟩
        [⟨some 1, "7", none, "open", none, 0, 0⟩] 0 1 false).store = []) := by
  refine ⟨⟨?_, ?_⟩, ⟨?_, ?_⟩, ⟨?_, ?_⟩⟩
  · exact ((conversation_deleted_cascade ⟨"[B1]", "[B2]"⟩
      ⟨"conversation_deleted", "incoming", none, none, some ⟨7, "open", none, ⟨none⟩⟩,
        none, none⟩ [] 0 1 false ⟨7, "open", none, ⟨none⟩⟩ rfl rfl).1 rfl).1
  · exact ((conversation_deleted_cascade ⟨"[B1]", "[B2]"⟩
      ⟨"conversation_deleted", "incoming", none, none, some ⟨7, "open", none, ⟨none⟩⟩,
        none, none⟩ [] 0 1 false ⟨7, "open", none, ⟨none⟩⟩ rfl rfl).1 rfl).2.1
  · exact ((conversation_deleted_cascade ⟨"[B1]", "[B2]"⟩
      ⟨"conversation_deleted", "incoming", none, none, some ⟨7, "open", none, ⟨none⟩⟩,
        none, none⟩ [⟨some 1, "7", some "D1", "open", none, 0, 0⟩] 0 1 false
      ⟨7, "open", none, ⟨none⟩⟩ rfl rfl).2.1 ⟨some 1, "7", some "D1", "open", none, 0, 0⟩
      "D1" rfl rfl (by decide)).1
  · exact ((conversation_deleted_cascade ⟨"[B1]", "[B2]"⟩
      ⟨"conversation_deleted", "incoming", none, none, some ⟨7, "open", none, ⟨none⟩⟩,
        none, none⟩ [⟨some 1, "7", some "D1", "open", none, 0, 0⟩] 0 1 false
      ⟨7, "open", none, ⟨none⟩⟩ rfl rfl).2.1 ⟨some 1, "7", some "D1", "open", none, 0, 0⟩
      "D1" rfl rfl (by decide)).2.1
  · exact ((conversation_deleted_cascade ⟨"[B1]", "[B2]"⟩
      ⟨"conversation_deleted", "incoming", none, none, some ⟨7, "open", none, ⟨none⟩⟩,
        none, none⟩ [⟨some 1, "7", none, "open", none, 0, 0⟩] 0 1 false
      ⟨7, "open", none, ⟨none⟩⟩ rfl rfl).2.2 ⟨some 1, "7", none, "open", none, 0, 0⟩
      rfl (by decide)).1
  · exact ((conversation_deleted_cascade ⟨"[B1]", "[B2]"⟩
      ⟨"conversation_deleted", "incoming", none, none, some ⟨7, "open", none, ⟨none⟩⟩,
        none, none⟩ [⟨some 1, "7", none, "open", none, 0, 0⟩] 0 1 false
      ⟨7, "open", none, ⟨none⟩⟩ rfl rfl).2.2 ⟨some 1, "7", none, "open", none, 0, 0⟩
      rfl (by decide)).2.1

/-- C9 counterexample: the claim says only one refresh is issued even when
many resolvers hit a stale cache concurrently. The staleness check of
`get_team_id` runs *outside* `team_cache_lock`, so in the legal interleaving
where two resolvers both evaluate the check before either acquires the lock
(schedule `[0, 1, 0, 1]` over a stale cache), each then runs its own
`update_team_cache`: the gateway's team-list endpoint is called 2 times, not
once. -/
theorem concurrent_stale_resolvers_double_refresh :
    cacheNeedsRefresh 86401 ⟨[("a", 1)], 0⟩ = true ∧
    (runSchedule 86401 (.ok [("Sales", 42)])
        ⟨⟨[("a", 1)], 0⟩, [.start, .start], 0⟩ [0, 1, 0, 1]).gatewayCalls = 2 ∧
    (2 : Nat) ≠ 1 := by
  exact ⟨rfl, rfl, by decide⟩

/-- C9 (amended): a `get_team_id` call triggers a repopulating team-list call
exactly when the cache is empty or older than 24 hours; a failed refresh
propagates the error to its caller and leaves the cached mapping and
last-refresh timestamp unchanged; a fresh cache is served with zero gateway
calls. But the staleness check is evaluated outside the lock, so concurrent
resolvers that each observe a stale cache each issue their own (serialised)
refresh — one gateway call per observer, shown here for three resolvers. -/
theorem team_cache_refresh_behavior :
    (∀ (now : Nat) (gw : Except Unit (List (String × Int))) (s : TeamCacheState)
        (name : String),
      (get_team_id now gw s name).2.2 = if cacheNeedsRefresh now s then 1 else 0) ∧
    (∀ (now : Nat) (s : TeamCacheState) (name : String),
      cacheNeedsRefresh now s = true →
      get_team_id now (.error ()) s name = (.error (), s, 1)) ∧
    (∀ (now : Nat) (gw : Except Unit (List (String × Int))) (s : TeamCacheState)
        (name : String),
      cacheNeedsRefresh now s = false →
      (get_team_id now gw s name).2.1 = s ∧ (get_team_id now gw s name).2.2 = 0) ∧
    (runSchedule 86401 (.ok [("Sales", 42)])
        ⟨⟨[("a", 1)], 0⟩, [.start, .start, .start], 0⟩ [0, 1, 2, 0, 1, 2]).gatewayCalls
      = 3 := by
  refine ⟨?_, ?_, ?_, rfl⟩
  · intro now gw s name
    by_cases h : cacheNeedsRefresh now s = true
    · cases gw with
      | ok teams => simp [get_team_id, h, update_team_cache]
      | error e => simp [get_team_id, h, update_team_cache]
    · have h' : cacheNeedsRefresh now s = false := by simpa using h
      simp [get_team_id, h']
  · intro now s name h
    simp [get_team_id, h, update_team_cache]
  · intro now gw s name h
    simp [get_team_id, h]

/-- C9 witness: the amended cache statement applied to a stale cache with a
failing gateway (error propagated, state untouched, one call) and to a fresh
cache (zero calls). -/
theorem team_cache_refresh_behavior_witness :
    get_team_id 86401 (.error ()) ⟨[("a", 1)], 0⟩ "Sales"
      = (.error (), ⟨[("a", 1)], 0⟩, 1) ∧
    (get_team_id 100 (.ok [("Sales", 42)]) ⟨[("a", 1)], 90⟩ "Sales").2.1
      = ⟨[("a", 1)], 90⟩ ∧
    (get_team_id 100 (.ok [("Sales", 42)]) ⟨[("a", 1)], 90⟩ "Sales").2.2 = 0 := by
  refine ⟨?_, ?_, ?_⟩
  · exact team_cache_refresh_behavior.2.1 86401 ⟨[("a", 1)], 0⟩ "Sales" (by decide)
  · exact (team_cache_refresh_behavior.2.2.1 100 (.ok [("Sales", 42)])
      ⟨[("a", 1)], 90⟩ "Sales" (by decide)).1
  · exact (team_cache_refresh_behavior.2.2.1 100 (.ok [("Sales", 42)])
      ⟨[("a", 1)], 90⟩ "Sales" (by decide)).2

theorem terminalFailureEffects_opened (cfg : BotConfig) (cid : Option String) :
    ((terminalFailureEffects cfg cid).2).all (isOpenedPublic cfg) = true := by
  unfold terminalFailureEffects
  cases cid with
  | none => rfl
  | some s =>
    by_cases h : (s == "") = true
    · simp [h]
    · have h' : (s == "") = false := by simpa using h
      simp only [h']
      cases s.toInt? <;> simp [isOpenedPublic]

theorem exec_apologies_opened (cfg : BotConfig) (r mr : Nat) (m : String)
    (dify chat : Option String) (gw : GatewayBehavior) (store : List Dialogue)
    (now : Nat) :
    ((process_message_with_dify_exec cfg r mr m dify chat gw store now).2.apologies).all
      (isOpenedPublic cfg) = true := by
  unfold process_message_with_dify_exec
  repeat' split <;> try rfl
  all_goals exact terminalFailureEffects_opened cfg chat

theorem runTaskAux_apologies_opened (cfg : BotConfig) (mr : Nat) (m : String)
    (dify chat : Option String) (oracle : Nat → GatewayBehavior) (now : Nat) :
    ∀ (fuel retries : Nat) (store : List Dialogue),
      ((runTaskAux cfg mr m dify chat oracle now fuel retries store).2.apologies).all
        (isOpenedPublic cfg) = true := by
  intro fuel
  induction fuel with
  | zero => intro retries store; rfl
  | succ n ih =>
    intro retries store
    rw [runTaskAux_step]
    have hstep := exec_apologies_opened cfg retries mr m dify chat (oracle retries) store now
    cases hs : (process_message_with_dify_exec cfg retries mr m dify chat
        (oracle retries) store now).1 with
    | returned v => simp only [hs]; exact hstep
    | raised => simp only [hs]; exact hstep
    | retryScheduled =>
      simp only [hs, List.all_append]
      simp [hstep, ih]

theorem pyStartsWith_append_self (a b : String) : pyStartsWith (a ++ b) a = true := by
  unfold pyStartsWith
  rw [String.data_append]
  exact List.isPrefixOf_iff_prefix.mpr (List.prefix_append a.data b.data)

/-- C10: no reply loop through system-generated failure messages. (1) Every
direct notification the webhook handler ever sends is the conversation-opened
sentinel, public. (2) Every apology the pipeline ever posts on its failure
paths is the conversation-opened sentinel, public. (3) The sentinel is a
prefix of any message that starts with it, so the ingestor's skip filter
matches every such text. (4) Consequently a `message_created` event whose
content starts with the conversation-opened sentinel enqueues no pipeline job,
whatever its sender, store or clock. -/
theorem failure_messages_are_opened_sentinel :
    (∀ (cfg : BotConfig) (w : ChatwootWebhook) (store : List Dialogue)
        (now newId : Nat) (ef : Bool),
      ((chatwoot_webhook cfg w store now newId ef).notifications).all
        (isOpenedPublic cfg) = true) ∧
    (∀ (cfg : BotConfig) (m : String) (dify chat : Option String)
        (oracle : Nat → GatewayBehavior) (now : Nat) (store : List Dialogue),
      ((run_process_message_with_dify cfg m dify chat oracle now store).2.apologies).all
        (isOpenedPublic cfg) = true) ∧
    (∀ (cfg : BotConfig) (sfx : String),
      pyStartsWith (cfg.bot_conversation_opened_message_external ++ sfx)
        cfg.bot_conversation_opened_message_external = true) ∧
    (∀ (cfg : BotConfig) (mt : String) (sender : Option ChatwootSender)
        (msg : Option ChatwootMessage) (conv : Option ChatwootConversation)
        (echo : Option String) (sfx : String) (store : List Dialogue)
        (now newId : Nat) (ef : Bool),
      (chatwoot_webhook cfg
        ⟨"message_created", mt, sender, msg, conv,
          some (cfg.bot_conversation_opened_message_external ++ sfx), echo⟩
        store now newId ef).enqueued = []) := by
  refine ⟨?_, ?_, ?_, ?_⟩
  · intro cfg w store now newId ef
    unfold chatwoot_webhook
    repeat' split
    all_goals first
      | rfl
      | (simp [isOpenedPublic]; done)
      | (simp only []; split <;> simp [isOpenedPublic])
  · intro cfg m dify chat oracle now store
    exact runTaskAux_apologies_opened cfg 3 m dify chat oracle now 4 0 store
  · intro cfg sfx
    exact pyStartsWith_append_self cfg.bot_conversation_opened_message_external sfx
  · intro cfg mt sender msg conv echo sfx store now newId ef
    have hcontent : pyStartsWith
        (pyStrOpt (some (cfg.bot_conversation_opened_message_external ++ sfx)))
        cfg.bot_conversation_opened_message_external = true := by
      simpa [pyStrOpt] using
        pyStartsWith_append_self cfg.bot_conversation_opened_message_external sfx
    by_cases hs : ((⟨"message_created", mt, sender, msg, conv,
        some (cfg.bot_conversation_opened_message_external ++ sfx), echo⟩ :
          ChatwootWebhook).sender_type == some "agent_bot"
        || (⟨"message_created", mt, sender, msg, conv,
        some (cfg.bot_conversation_opened_message_external ++ sfx), echo⟩ :
          ChatwootWebhook).sender_type == some "????") = true
    · simp [chatwoot_webhook, hs]
    · have hs' : ((⟨"message_created", mt, sender, msg, conv,
          some (cfg.bot_conversation_opened_message_external ++ sfx), echo⟩ :
            ChatwootWebhook).sender_type == some "agent_bot"
          || (⟨"message_created", mt, sender, msg, conv,
          some (cfg.bot_conversation_opened_message_external ++ sfx), echo⟩ :
            ChatwootWebhook).sender_type == some "????") = false := by
        simpa using hs
      simp [chatwoot_webhook, hs', hcontent]

end ChatwootDify
